import Mathlib

/-
Verification of the RCON server core (Deno/TypeScript, class RCONServer).

The embedding models, byte for byte, the functions of the source file:
the frame codec (writeMessage / readResponse), the authentication gate
portion of handleConnection, the per-frame body of the read loop, reply,
and notifyUnreplied, together with the exact semantics of the Buffer
library operations they call (Node Buffer as ported to the Deno std
node-compatibility layer): writeInt32LE range-checks its value,
readInt32LE bounds-checks its offset, toString with the ascii encoding
clamps its range and masks each byte with 0x7F, Buffer.byteLength uses
the utf8 encoding by default, and Buffer.write with the ascii encoding
stores one byte (code unit mod 256) per UTF-16 code unit.

Strings of the TypeScript program are modelled as lists of UTF-16 code
units (List Nat); buffers as lists of bytes (List Nat, each below 256).
Surrogate pairs are outside the model; every body considered here is
below code point 0x800, where Buffer.byteLength is exactly the per-unit
utf8 length used below.
-/

namespace RCON

/-- Message type enumeration from the source: SERVERDATA_RESPONSE_VALUE = 0. -/
def SERVERDATA_RESPONSE_VALUE : Int := 0

/-- Message type enumeration from the source: SERVERDATA_EXECCOMMAND = 2. -/
def SERVERDATA_EXECCOMMAND : Int := 2

/-- Message type enumeration from the source: SERVERDATA_AUTH_RESPONSE = 2
(deliberately the same numeric value as SERVERDATA_EXECCOMMAND). -/
def SERVERDATA_AUTH_RESPONSE : Int := 2

/-- Message type enumeration from the source: SERVERDATA_AUTH = 3. -/
def SERVERDATA_AUTH : Int := 3

/-- Little-endian byte decomposition of a 32-bit unsigned value:
the four bytes a buffer holds after a 32-bit little-endian write of u (u < 2^32). -/
def toLE4 (u : Nat) : List Nat :=
  [u % 256, u / 256 % 256, u / 65536 % 256, u / 16777216 % 256]

/-- Buffer.writeInt32LE value semantics (Node buffer, as ported to the Deno std
node-compatibility layer): the value must satisfy -2^31 <= value <= 2^31 - 1,
otherwise an ERR_OUT_OF_RANGE error is thrown; an accepted value is stored as
the four little-endian bytes of its twos-complement representation. -/
def writeInt32LE (value : Int) : Except String (List Nat) :=
  if value < -2147483648 ∨ 2147483647 < value then Except.error "ERR_OUT_OF_RANGE"
  else Except.ok (toLE4 (value % 4294967296).toNat)

/-- Recombination of four consecutive buffer bytes as a little-endian 32-bit
unsigned value (what Buffer.readInt32LE reads before sign interpretation).
Out-of-range indices contribute 0; readInt32LE below never reads them because
of its bounds check. -/
def readUInt32At (buf : List Nat) (off : Nat) : Nat :=
  buf.getD off 0 + buf.getD (off + 1) 0 * 256 +
    buf.getD (off + 2) 0 * 65536 + buf.getD (off + 3) 0 * 16777216

/-- Sign interpretation of a 32-bit unsigned value as a twos-complement
signed 32-bit integer. -/
def asInt32 (u : Nat) : Int :=
  if u < 2147483648 then (u : Int) else (u : Int) - 4294967296

/-- Buffer.readInt32LE semantics: the read is bounds-checked, an offset with
offset + 4 > buffer length throws ERR_OUT_OF_RANGE; otherwise the four bytes
at the offset are read little-endian and sign-interpreted. -/
def readInt32LE (buf : List Nat) (off : Nat) : Except String Int :=
  if buf.length < off + 4 then Except.error "ERR_OUT_OF_RANGE"
  else Except.ok (asInt32 (readUInt32At buf off))

/-- Buffer.toString with the ascii encoding and an explicit range, as used by
readResponse: the end position (here size + 2, possibly negative on garbage
input) is clamped to the buffer, an empty string results when it does not
exceed the start, and each byte in range is masked with 0x7F. No error is
ever thrown. -/
def toStringAscii (buf : List Nat) (start : Nat) (stop : Int) : List Nat :=
  ((buf.take (min stop.toNat buf.length)).drop start).map (fun b => b % 128)

/-- Buffer.byteLength of a string under the default utf8 encoding, per UTF-16
code unit (exact for code units below 0xD800; no body in this development
reaches a surrogate). -/
def utf8Len (c : Nat) : Nat :=
  if c < 128 then 1 else if c < 2048 then 2 else 3

/-- Buffer.byteLength of a whole string (default utf8 encoding). -/
def byteLength (s : List Nat) : Nat := (s.map utf8Len).sum

/-- Output of crypto.getRandomValues on a one-element Uint32Array, as used by
RCONServer.generateId: an arbitrary unsigned 32-bit value. The entropy drawn
from the system is passed in explicitly. -/
def generateId (entropy : Nat) : Nat := entropy % 4294967296

/-- A decoded protocol message, as returned by RCONServer.readResponse:
fields id, type, body, size. -/
structure Message where
  id : Int
  type : Int
  body : List Nat
  size : Int
deriving Repr, DecidableEq

/--
RCONServer.writeMessage. The source allocates a zero-filled buffer of
byteLength(body) + 14 bytes, then performs
  writeInt32LE(bodySize + 10, 0),
  writeInt32LE(message.id ?? this.generateId(), 4),
  writeInt32LE(message.type, 8),
  write(message.body, 12, bodySize + 10, ascii),
  writeInt16BE(0, bodySize + 12).
Buffer.write with the ascii encoding stores min(length argument, space
after the offset, code units available) bytes, each a code unit mod 256,
at offset 12; bytes between the written body and the final two-byte zero
terminator keep their alloc-zero value. writeInt16BE(0, bodySize + 12) is
in range and in bounds and stores the final two zero bytes. The generated
id used when id is null is determined by the entropy argument.
-/
def writeMessage (id : Option Int) (type_ : Int) (body : List Nat)
    (entropy : Nat) : Except String (List Nat) :=
  let bodySize := byteLength body
  match writeInt32LE ((bodySize : Int) + 10) with
  | Except.error e => Except.error e
  | Except.ok sizeB =>
    match writeInt32LE (id.getD ((generateId entropy : Nat) : Int)) with
    | Except.error e => Except.error e
    | Except.ok idB =>
      match writeInt32LE type_ with
      | Except.error e => Except.error e
      | Except.ok typeB =>
        let written := min (min (bodySize + 10) body.length) (bodySize + 2)
        let bodyBytes := (body.take written).map (fun c => c % 256)
        Except.ok (sizeB ++ idB ++ typeB ++ bodyBytes ++
          List.replicate (bodySize - written) 0 ++ [0, 0])

/-- RCONServer.readResponse: size, id and type are three bounds-checked
little-endian int32 reads at offsets 0, 4 and 8; the body is an ascii
toString from offset 12 to size + 2. Only the int32 reads can throw. -/
def readResponse (buffer : List Nat) : Except String Message :=
  match readInt32LE buffer 0 with
  | Except.error e => Except.error e
  | Except.ok size =>
    match readInt32LE buffer 4 with
    | Except.error e => Except.error e
    | Except.ok id =>
      match readInt32LE buffer 8 with
      | Except.error e => Except.error e
      | Except.ok type_ =>
        Except.ok { id := id, type := type_,
                    body := toStringAscii buffer 12 (size + 2), size := size }

/-- Events the server emits to its external consumer (the
RCONServerListeners interface). -/
inductive Event where
  | connection (clientId : Nat)
  | request (clientId : Nat) (message : Message)
  | close (clientId : Nat)
  | unreplied (clientId : Nat) (message : Message)
deriving Repr, DecidableEq

/-- Observable outcome of the authentication gate on one new connection:
the frames written to the transport in order, whether conn.close() was
called, the events emitted, and whether the connection was registered
(added to the connections and unreplied maps). -/
structure GateOutcome where
  written : List (List Nat)
  closed : Bool
  events : List Event
  registered : Bool
deriving Repr, DecidableEq

/--
The authentication gate portion of RCONServer.handleConnection
(from the type check through registration), acting on the decoded first
message of a connection with resource id rid:
  if the type is not SERVERDATA_AUTH, close the connection, nothing written;
  otherwise write an empty-body SERVERDATA_RESPONSE_VALUE frame carrying the
  submitted id; then, if the body differs from the configured password,
  write an empty-body SERVERDATA_AUTH_RESPONSE frame with id -1 and close;
  if it matches, write an empty-body SERVERDATA_AUTH_RESPONSE frame carrying
  the submitted id, emit the connection event and register the connection,
  leaving it open.
-/
def handleAuth (password : List Nat) (rid : Nat) (authMessage : Message) :
    Except String GateOutcome :=
  if authMessage.type ≠ SERVERDATA_AUTH then
    Except.ok { written := [], closed := true, events := [], registered := false }
  else
    match writeMessage (some authMessage.id) SERVERDATA_RESPONSE_VALUE [] 0 with
    | Except.error e => Except.error e
    | Except.ok f1 =>
      if authMessage.body ≠ password then
        match writeMessage (some (-1)) SERVERDATA_AUTH_RESPONSE [] 0 with
        | Except.error e => Except.error e
        | Except.ok f2 =>
          Except.ok { written := [f1, f2], closed := true, events := [],
                      registered := false }
      else
        match writeMessage (some authMessage.id) SERVERDATA_AUTH_RESPONSE [] 0 with
        | Except.error e => Except.error e
        | Except.ok f2 =>
          Except.ok { written := [f1, f2], closed := false,
                      events := [Event.connection rid], registered := true }

/-- Lookup in a JS Map modelled as an insertion-ordered association list. -/
def mget {α : Type} (m : List (Nat × α)) (k : Nat) : Option α :=
  match m with
  | [] => none
  | (k', v) :: rest => if k' = k then some v else mget rest k

/-- JS Map.set: update the value in place when the key is present, append
a new entry otherwise. -/
def mset {α : Type} (m : List (Nat × α)) (k : Nat) (v : α) : List (Nat × α) :=
  match m with
  | [] => [(k, v)]
  | (k', v') :: rest => if k' = k then (k, v) :: rest else (k', v') :: mset rest k v

/-- The mutable state of an RCONServer relevant to the registry claims:
the connections map (resource id to transport, a transport modelled as the
list of byte buffers written to it so far) and the public unreplied map
(resource id to the list of pending messages). -/
structure ServerState where
  connections : List (Nat × List (List Nat))
  unreplied : List (Nat × List Message)
deriving Repr, DecidableEq

/--
One iteration of the authenticated read loop of handleConnection for the
connection with resource id rid, on one received byte buffer:
decode it with readResponse; on SERVERDATA_EXECCOMMAND emit a request event
and push the message onto this connection entry of the unreplied map (the
optional-chaining push is a no-op when the entry is absent); on
SERVERDATA_RESPONSE_VALUE echo the raw received buffer back to the
transport; ignore any other type. In the source the loop writes the echo
through the conn object it holds directly; the state here reaches that
transport through the connections entry created at registration.
-/
def handleFrame (s : ServerState) (rid : Nat) (buffer : List Nat) :
    Except String (ServerState × List Event) :=
  match readResponse buffer with
  | Except.error e => Except.error e
  | Except.ok message =>
    if message.type = SERVERDATA_EXECCOMMAND then
      Except.ok
        ({ s with unreplied :=
            match mget s.unreplied rid with
            | none => s.unreplied
            | some l => mset s.unreplied rid (l ++ [message]) },
         [Event.request rid message])
    else if message.type = SERVERDATA_RESPONSE_VALUE then
      match mget s.connections rid with
      | none => Except.ok (s, [])
      | some conn =>
        Except.ok ({ s with connections := mset s.connections rid (conn ++ [buffer]) }, [])
    else
      Except.ok (s, [])

/--
RCONServer.reply(rid, reqId, body): look the connection up and throw
"Connection not found" when absent (before anything is written or any state
is touched); otherwise encode a SERVERDATA_RESPONSE_VALUE frame with the
given id and body, write it to that transport, and replace this connection
entry of the unreplied map by its messages whose id differs from reqId.
-/
def reply (s : ServerState) (rid : Nat) (reqId : Int) (body : List Nat) :
    Except String ServerState :=
  match mget s.connections rid with
  | none => Except.error "Connection not found"
  | some conn =>
    match writeMessage (some reqId) SERVERDATA_RESPONSE_VALUE body 0 with
    | Except.error e => Except.error e
    | Except.ok message =>
      Except.ok
        { connections := mset s.connections rid (conn ++ [message]),
          unreplied :=
            match mget s.unreplied rid with
            | none => s.unreplied
            | some l => mset s.unreplied rid (l.filter (fun m => m.id != reqId)) }

/-- Body of RCONServer.notifyUnreplied, as run on a receiver: iterate the
unreplied map and emit one unreplied event per pending message; the state
is read, never written. -/
def notifyUnreplied (s : ServerState) : List Event :=
  s.unreplied.flatMap (fun p => p.2.map (fun m => Event.unreplied p.1 m))

/-- One tick of the sweeper timer: the timer invokes the callback it was
registered with on the receiver captured at registration time. A method
of a class body is strict-mode code, so when the callback was extracted
unbound the this-value at the call is undefined and the first field access
this.unreplied throws a TypeError before any event is emitted. -/
def sweeperTick (receiver : Option ServerState) : Except String (List Event) :=
  match receiver with
  | none => Except.error "TypeError: this is undefined"
  | some s => Except.ok (notifyUnreplied s)

/-- The receiver the sweeper registration captures. The constructor runs
setInterval(this.notifyUnreplied, 60 * 1000): the method is passed as a
bare function value, which does not bind this, so no receiver is captured. -/
def sweeperReceiver : Option ServerState := none


/-- The utf8 bytes of one code unit below 0x10000 (no surrogate handling;
used only to express the byte layout the specification asserts). -/
def utf8Bytes (c : Nat) : List Nat :=
  if c < 128 then [c]
  else if c < 2048 then [192 + c / 64, 128 + c % 64]
  else [224 + c / 4096, 128 + c / 64 % 64, 128 + c % 64]

/-- The utf8 encoding of a whole string, the encoding under which
Buffer.byteLength measures the body. -/
def utf8Encode (s : List Nat) : List Nat := s.flatMap utf8Bytes

/-- Modelled from the spec: the byte layout C6 asserts for an encoded frame —
a little-endian size field equal to 10 + byteLength(body), the little-endian
id and type fields, the body bytes occupying the next byteLength(body)
positions, and two zero bytes at the end. The body bytes are read as the
encoding under which byteLength measures them. -/
def c6AssertedLayout (id t : Int) (body : List Nat) (bytes : List Nat) : Prop :=
  bytes = toLE4 (byteLength body + 10) ++ toLE4 ((id % 4294967296).toNat) ++
    toLE4 ((t % 4294967296).toNat) ++ utf8Encode body ++ [0, 0]

lemma toLE4_length (u : Nat) : (toLE4 u).length = 4 := rfl

lemma readUInt32At_toLE4 (u : Nat) (hu : u < 4294967296) (rest : List Nat) :
    readUInt32At (toLE4 u ++ rest) 0 = u := by
  simp [readUInt32At, toLE4]
  omega

lemma readUInt32At_shift (xs ys : List Nat) (h : xs.length = 4) (off : Nat) :
    readUInt32At (xs ++ ys) (4 + off) = readUInt32At ys off := by
  unfold readUInt32At
  rw [List.getD_append_right _ _ _ _ (by omega), List.getD_append_right _ _ _ _ (by omega),
      List.getD_append_right _ _ _ _ (by omega), List.getD_append_right _ _ _ _ (by omega)]
  rw [h]
  have e1 : 4 + off - 4 = off := by omega
  have e2 : 4 + off + 1 - 4 = off + 1 := by omega
  have e3 : 4 + off + 2 - 4 = off + 2 := by omega
  have e4 : 4 + off + 3 - 4 = off + 3 := by omega
  rw [e1, e2, e3, e4]

lemma byteLength_ascii (body : List Nat) (h : ∀ c ∈ body, c < 128) :
    byteLength body = body.length := by
  induction body with
  | nil => rfl
  | cons a l ih =>
    have ha : a < 128 := h a (by simp)
    have ih' : byteLength l = l.length := ih (fun c hc => h c (by simp [hc]))
    simp [byteLength, utf8Len, ha] at ih' ⊢
    omega

lemma map_mod256_ascii (body : List Nat) (h : ∀ c ∈ body, c < 128) :
    body.map (fun c => c % 256) = body := by
  induction body with
  | nil => rfl
  | cons a l ih =>
    have ha : a < 128 := h a (by simp)
    have ih' := ih (fun c hc => h c (by simp [hc]))
    simp [Nat.mod_eq_of_lt (show a < 256 by omega), ih']

lemma map_mod128_ascii (body : List Nat) (h : ∀ c ∈ body, c < 128) :
    body.map (fun b => b % 128) = body := by
  induction body with
  | nil => rfl
  | cons a l ih =>
    have ha : a < 128 := h a (by simp)
    have ih' := ih (fun c hc => h c (by simp [hc]))
    simp [Nat.mod_eq_of_lt ha, ih']

lemma asInt32_emod (v : Int) (h1 : -2147483648 ≤ v) (h2 : v ≤ 2147483647) :
    asInt32 (v % 4294967296).toNat = v := by
  unfold asInt32
  split <;> omega

lemma asInt32_small (u : Nat) (h : u < 2147483648) : asInt32 u = (u : Int) := by
  unfold asInt32
  rw [if_pos h]

lemma writeInt32LE_ok (v : Int) (h1 : -2147483648 ≤ v) (h2 : v ≤ 2147483647) :
    writeInt32LE v = Except.ok (toLE4 (v % 4294967296).toNat) := by
  unfold writeInt32LE
  rw [if_neg (by omega)]

/-- Evaluation of writeMessage on an explicit non-null int32 id and an all-ASCII
body: the exact byte sequence the source produces, namely the little-endian
size field 10 + length, the two little-endian twos-complement int32 fields,
the body bytes, and the final two zero bytes. -/
lemma writeMessage_ascii (id t : Int) (body : List Nat) (e : Nat)
    (hb : ∀ c ∈ body, c < 128)
    (hid1 : -2147483648 ≤ id) (hid2 : id ≤ 2147483647)
    (ht1 : -2147483648 ≤ t) (ht2 : t ≤ 2147483647)
    (hlen : body.length ≤ 2147483637) :
    writeMessage (some id) t body e =
      Except.ok (toLE4 (body.length + 10) ++ toLE4 ((id % 4294967296).toNat) ++
        toLE4 ((t % 4294967296).toNat) ++ body ++ [0, 0]) := by
  unfold writeMessage
  simp only [Option.getD_some]
  rw [byteLength_ascii body hb]
  rw [writeInt32LE_ok ((body.length : Int) + 10) (by omega) (by omega),
      writeInt32LE_ok id hid1 hid2, writeInt32LE_ok t ht1 ht2]
  have hmin : min (min (body.length + 10) body.length) (body.length + 2) = body.length := by
    omega
  rw [hmin, List.take_length, map_mod256_ascii body hb]
  have hsz : (((body.length : Int) + 10) % 4294967296).toNat = body.length + 10 := by
    omega
  simp [hsz]

/-- Evaluation of readResponse on any buffer beginning with three four-byte
groups: the three bounds-checked reads succeed and return the sign-interpreted
little-endian values. -/
lemma readResponse_header (s i t : Nat) (rest : List Nat)
    (hs : s < 4294967296) (hi : i < 4294967296) (ht : t < 4294967296) :
    readResponse (toLE4 s ++ (toLE4 i ++ (toLE4 t ++ rest))) =
      Except.ok { id := asInt32 i, type := asInt32 t,
                  body := toStringAscii (toLE4 s ++ (toLE4 i ++ (toLE4 t ++ rest)))
                    12 (asInt32 s + 2),
                  size := asInt32 s } := by
  have hlen : (toLE4 s ++ (toLE4 i ++ (toLE4 t ++ rest))).length = 12 + rest.length := by
    simp [toLE4]
    omega
  have h0 : readUInt32At (toLE4 s ++ (toLE4 i ++ (toLE4 t ++ rest))) 0 = s :=
    readUInt32At_toLE4 s hs _
  have h4 : readUInt32At (toLE4 s ++ (toLE4 i ++ (toLE4 t ++ rest))) 4 = i := by
    have hs4 := readUInt32At_shift (toLE4 s) (toLE4 i ++ (toLE4 t ++ rest)) rfl 0
    simp only [Nat.add_zero] at hs4
    rw [hs4]
    exact readUInt32At_toLE4 i hi _
  have h8 : readUInt32At (toLE4 s ++ (toLE4 i ++ (toLE4 t ++ rest))) 8 = t := by
    have hs8 := readUInt32At_shift (toLE4 s) (toLE4 i ++ (toLE4 t ++ rest)) rfl 4
    rw [show (8 : Nat) = 4 + 4 from rfl, hs8]
    have hs4 := readUInt32At_shift (toLE4 i) (toLE4 t ++ rest) rfl 0
    simp only [Nat.add_zero] at hs4
    rw [hs4]
    exact readUInt32At_toLE4 t ht _
  have r0 : readInt32LE (toLE4 s ++ (toLE4 i ++ (toLE4 t ++ rest))) 0 =
      Except.ok (asInt32 s) := by
    unfold readInt32LE
    rw [if_neg (by omega), h0]
  have r4 : readInt32LE (toLE4 s ++ (toLE4 i ++ (toLE4 t ++ rest))) 4 =
      Except.ok (asInt32 i) := by
    unfold readInt32LE
    rw [if_neg (by omega), h4]
  have r8 : readInt32LE (toLE4 s ++ (toLE4 i ++ (toLE4 t ++ rest))) 8 =
      Except.ok (asInt32 t) := by
    unfold readInt32LE
    rw [if_neg (by omega), h8]
  unfold readResponse
  rw [r0, r4, r8]

/-- The body slice the decoder takes from a well-formed frame: from offset 12
through size + 2 = length + 12, exactly the ASCII body. -/
lemma toStringAscii_frame (H body tail : List Nat) (hH : H.length = 12)
    (htail : tail.length = 2) (hb : ∀ c ∈ body, c < 128) :
    toStringAscii (H ++ (body ++ tail)) 12 ((body.length : Int) + 12) = body := by
  unfold toStringAscii
  have hto : ((body.length : Int) + 12).toNat = body.length + 12 := by omega
  rw [hto]
  have hl : (H ++ (body ++ tail)).length = body.length + 14 := by
    simp [hH, htail]
    omega
  rw [hl]
  have hm : min (body.length + 12) (body.length + 14) = body.length + 12 := by omega
  rw [hm]
  have htake : (H ++ (body ++ tail)).take (body.length + 12) = H ++ body := by
    rw [List.take_append_eq_append_take]
    rw [List.take_of_length_le (by omega)]
    rw [hH]
    have h12 : body.length + 12 - 12 = body.length := by omega
    rw [h12]
    rw [List.take_append_eq_append_take]
    rw [List.take_length]
    have h0 : body.length - body.length = 0 := by omega
    rw [h0]
    simp
  rw [htake]
  have hdrop : (H ++ body).drop 12 = body := by
    rw [← hH, List.drop_left]
  rw [hdrop]
  exact map_mod128_ascii body hb

/-- Decoding the exact byte sequence writeMessage produces for an int32 id and
an ASCII body recovers the id, the type, the body, and the size field
10 + length. -/
lemma readResponse_encoded_ascii (id t : Int) (body : List Nat)
    (hid1 : -2147483648 ≤ id) (hid2 : id ≤ 2147483647)
    (ht1 : -2147483648 ≤ t) (ht2 : t ≤ 2147483647)
    (hb : ∀ c ∈ body, c < 128)
    (hlen : body.length ≤ 2147483637) :
    readResponse (toLE4 (body.length + 10) ++ toLE4 ((id % 4294967296).toNat) ++
      toLE4 ((t % 4294967296).toNat) ++ body ++ [0, 0]) =
      Except.ok { id := id, type := t, body := body, size := (body.length : Int) + 10 } := by
  have hsplit : toLE4 (body.length + 10) ++ toLE4 ((id % 4294967296).toNat) ++
      toLE4 ((t % 4294967296).toNat) ++ body ++ [0, 0] =
      toLE4 (body.length + 10) ++ (toLE4 ((id % 4294967296).toNat) ++
        (toLE4 ((t % 4294967296).toNat) ++ (body ++ [0, 0]))) := by
    simp [List.append_assoc]
  rw [hsplit]
  rw [readResponse_header (body.length + 10) ((id % 4294967296).toNat)
    ((t % 4294967296).toNat) (body ++ [0, 0]) (by omega) (by omega) (by omega)]
  have hA : asInt32 (body.length + 10) = (body.length : Int) + 10 := by
    rw [asInt32_small _ (by omega)]
    push_cast
    ring
  rw [hA, asInt32_emod id hid1 hid2, asInt32_emod t ht1 ht2]
  have hsplit2 : toLE4 (body.length + 10) ++ (toLE4 ((id % 4294967296).toNat) ++
      (toLE4 ((t % 4294967296).toNat) ++ (body ++ [0, 0]))) =
      (toLE4 (body.length + 10) ++ toLE4 ((id % 4294967296).toNat) ++
        toLE4 ((t % 4294967296).toNat)) ++ (body ++ [0, 0]) := by
    simp [List.append_assoc]
  rw [hsplit2]
  have hstop : (body.length : Int) + 10 + 2 = (body.length : Int) + 12 := by ring
  rw [hstop]
  rw [toStringAscii_frame _ body [0, 0] (by simp [toLE4]) rfl hb]

/-- JS Map lookup after Map.set at the same key returns the new value. -/
lemma mget_mset_self {α : Type} (m : List (Nat × α)) (k : Nat) (v : α) :
    mget (mset m k v) k = some v := by
  induction m with
  | nil => simp [mset, mget]
  | cons p rest ih =>
    obtain ⟨a, b⟩ := p
    by_cases h : a = k
    · simp [mset, mget, h]
    · simp [mset, mget, h, ih]

/-- Map.set with the value the key already holds leaves the map unchanged. -/
lemma mset_eq_of_mget {α : Type} (m : List (Nat × α)) (k : Nat) (v : α)
    (h : mget m k = some v) : mset m k v = m := by
  induction m with
  | nil => simp [mget] at h
  | cons p rest ih =>
    obtain ⟨a, b⟩ := p
    by_cases hk : a = k
    · simp [mget, hk] at h
      simp [mset, hk, h]
    · simp [mget, hk] at h
      simp [mset, hk, ih h]

/-- C1: for every id in the full 32-bit signed range, every message kind, and
every printable-ASCII body, decoding the bytes produced by encoding (id, type,
body) yields a message whose id, type, and body equal the inputs exactly, and
the encoded byte sequence has length 14 + byteLength(body). The length bound
on the body covers every string the engine can represent. -/
theorem c1_encode_decode_roundtrip (id t : Int) (body : List Nat)
    (hid1 : -2147483648 ≤ id) (hid2 : id ≤ 2147483647)
    (ht : t = SERVERDATA_RESPONSE_VALUE ∨ t = SERVERDATA_EXECCOMMAND ∨
      t = SERVERDATA_AUTH_RESPONSE ∨ t = SERVERDATA_AUTH)
    (hb : ∀ c ∈ body, 32 ≤ c ∧ c ≤ 126)
    (hlen : body.length ≤ 2147483637) :
    ∃ bytes m, writeMessage (some id) t body 0 = Except.ok bytes ∧
      bytes.length = 14 + byteLength body ∧
      readResponse bytes = Except.ok m ∧
      m.id = id ∧ m.type = t ∧ m.body = body := by
  have hb' : ∀ c ∈ body, c < 128 := fun c hc => by have := hb c hc; omega
  have ht1 : -2147483648 ≤ t := by
    rcases ht with h | h | h | h <;>
      simp [h, SERVERDATA_RESPONSE_VALUE, SERVERDATA_EXECCOMMAND,
        SERVERDATA_AUTH_RESPONSE, SERVERDATA_AUTH]
  have ht2 : t ≤ 2147483647 := by
    rcases ht with h | h | h | h <;>
      simp [h, SERVERDATA_RESPONSE_VALUE, SERVERDATA_EXECCOMMAND,
        SERVERDATA_AUTH_RESPONSE, SERVERDATA_AUTH]
  have hw := writeMessage_ascii id t body 0 hb' hid1 hid2 ht1 ht2 hlen
  have hlen14 : (toLE4 (body.length + 10) ++ toLE4 ((id % 4294967296).toNat) ++
      toLE4 ((t % 4294967296).toNat) ++ body ++ [0, 0]).length = 14 + byteLength body := by
    rw [byteLength_ascii body hb']
    simp [toLE4]
    omega
  have hr := readResponse_encoded_ascii id t body hid1 hid2 ht1 ht2 hb' hlen
  exact ⟨_, _, hw, hlen14, hr, rfl, rfl, rfl⟩

/-- Witness for C1 at id 5, type SERVERDATA_AUTH, body "a". -/
theorem c1_witness :
    (∀ c ∈ [97], 32 ≤ c ∧ c ≤ 126) ∧
    (∃ bytes m, writeMessage (some 5) SERVERDATA_AUTH [97] 0 = Except.ok bytes ∧
      bytes.length = 14 + byteLength [97] ∧
      readResponse bytes = Except.ok m ∧
      m.id = 5 ∧ m.type = SERVERDATA_AUTH ∧ m.body = [97]) :=
  ⟨by decide,
   c1_encode_decode_roundtrip 5 SERVERDATA_AUTH [97] (by decide) (by decide)
     (Or.inr (Or.inr (Or.inr rfl))) (by decide) (by decide)⟩

/-- C6 fails as stated: for the one-character body 0xE9 (byteLength 2, since
byteLength uses utf8) the encoder writes only one body byte, 0xE9 itself
(Buffer.write with the ascii encoding), leaving an alloc-zero byte inside the
region the size field attributes to the body. The produced 16 bytes match
neither the asserted layout with the utf8 body bytes nor a layout carrying
the single ascii body byte. -/
theorem c6_counterexample :
    writeMessage (some 0) 0 [233] 0 =
      Except.ok [12, 0, 0, 0, 0, 0, 0, 0, 0, 0, 0, 0, 233, 0, 0, 0] ∧
    ¬ c6AssertedLayout 0 0 [233] [12, 0, 0, 0, 0, 0, 0, 0, 0, 0, 0, 0, 233, 0, 0, 0] ∧
    [12, 0, 0, 0, 0, 0, 0, 0, 0, 0, 0, 0, 233, 0, 0, 0] ≠
      toLE4 (byteLength [233] + 10) ++ toLE4 0 ++ toLE4 0 ++ [233] ++ [0, 0] := by
  refine ⟨rfl, ?_, by decide⟩
  unfold c6AssertedLayout
  decide

/-- C6 (amended): for every int32 id, every message kind, and every body of
ASCII code units (below 0x80), encode produces exactly 14 + byteLength(body)
bytes laid out as the 4-byte little-endian size field 10 + byteLength(body),
the 4-byte little-endian id and type fields, the body bytes from offset 12,
and two zero bytes at the end. -/
theorem c6_layout_ascii (id t : Int) (body : List Nat)
    (hid1 : -2147483648 ≤ id) (hid2 : id ≤ 2147483647)
    (ht : t = SERVERDATA_RESPONSE_VALUE ∨ t = SERVERDATA_EXECCOMMAND ∨
      t = SERVERDATA_AUTH_RESPONSE ∨ t = SERVERDATA_AUTH)
    (hb : ∀ c ∈ body, c < 128)
    (hlen : body.length ≤ 2147483637) :
    ∃ bytes, writeMessage (some id) t body 0 = Except.ok bytes ∧
      bytes = toLE4 (byteLength body + 10) ++ toLE4 ((id % 4294967296).toNat) ++
        toLE4 ((t % 4294967296).toNat) ++ body ++ [0, 0] ∧
      bytes.length = 14 + byteLength body := by
  have ht1 : -2147483648 ≤ t := by
    rcases ht with h | h | h | h <;>
      simp [h, SERVERDATA_RESPONSE_VALUE, SERVERDATA_EXECCOMMAND,
        SERVERDATA_AUTH_RESPONSE, SERVERDATA_AUTH]
  have ht2 : t ≤ 2147483647 := by
    rcases ht with h | h | h | h <;>
      simp [h, SERVERDATA_RESPONSE_VALUE, SERVERDATA_EXECCOMMAND,
        SERVERDATA_AUTH_RESPONSE, SERVERDATA_AUTH]
  have hw := writeMessage_ascii id t body 0 hb hid1 hid2 ht1 ht2 hlen
  rw [byteLength_ascii body hb]
  refine ⟨_, hw, rfl, ?_⟩
  simp [toLE4]
  omega

/-- Witness for C6 (amended) at id -1, type SERVERDATA_RESPONSE_VALUE, body "ok". -/
theorem c6_layout_ascii_witness :
    (∀ c ∈ [111, 107], c < 128) ∧
    (∃ bytes, writeMessage (some (-1)) SERVERDATA_RESPONSE_VALUE [111, 107] 0 = Except.ok bytes ∧
      bytes = toLE4 (byteLength [111, 107] + 10) ++ toLE4 (((-1 : Int) % 4294967296).toNat) ++
        toLE4 (((SERVERDATA_RESPONSE_VALUE : Int) % 4294967296).toNat) ++ [111, 107] ++ [0, 0] ∧
      bytes.length = 14 + byteLength [111, 107]) :=
  ⟨by decide,
   c6_layout_ascii (-1) SERVERDATA_RESPONSE_VALUE [111, 107] (by decide) (by decide)
     (Or.inl rfl) (by decide) (by decide)⟩

/-- C7 fails as stated: an 11-byte buffer is shorter than the 12 bytes the
three header reads need, and the bounds check of the first out-of-bounds
readInt32LE throws. -/
theorem c7_counterexample :
    readResponse [0, 0, 0, 0, 0, 0, 0, 0, 0, 0, 0] = Except.error "ERR_OUT_OF_RANGE" := rfl

/-- C7 (amended): for every input byte buffer of at least 12 bytes, including
malformed ones whose declared size field does not match the buffer length,
decode raises no error and returns a message (possibly with garbage fields);
buffers shorter than 12 bytes make the bounds-checked header reads throw. -/
theorem c7_decode_total (buf : List Nat) (h : 12 ≤ buf.length) :
    ∃ m, readResponse buf = Except.ok m := by
  unfold readResponse readInt32LE
  rw [if_neg (by omega), if_neg (by omega), if_neg (by omega)]
  exact ⟨_, rfl⟩

/-- Witness for C7 (amended) on a 13-byte buffer whose size field (77) does
not match the buffer length. -/
theorem c7_decode_total_witness :
    (12 : Nat) ≤ ([77, 0, 0, 0, 9, 0, 0, 0, 2, 0, 0, 0, 65] : List Nat).length ∧
    ∃ m, readResponse [77, 0, 0, 0, 9, 0, 0, 0, 2, 0, 0, 0, 65] = Except.ok m :=
  ⟨by decide, c7_decode_total [77, 0, 0, 0, 9, 0, 0, 0, 2, 0, 0, 0, 65] (by decide)⟩

/-- C8 fails on the code: generateId draws a uniform unsigned 32-bit value,
but writeMessage stores it with Buffer.writeInt32LE, whose range check
rejects every value above 2^31 - 1. At the generated value 2^31 encode
throws ERR_OUT_OF_RANGE instead of producing a frame; at 2^31 - 1 it still
succeeds, with the id bytes 255, 255, 255, 127. -/
theorem c8_generated_id_overflow :
    writeMessage none SERVERDATA_RESPONSE_VALUE [] 2147483648 =
      Except.error "ERR_OUT_OF_RANGE" ∧
    writeMessage none SERVERDATA_RESPONSE_VALUE [] 2147483647 =
      Except.ok [10, 0, 0, 0, 255, 255, 255, 127, 0, 0, 0, 0, 0, 0] :=
  ⟨rfl, rfl⟩

/-- C2: for every decoded first frame of kind SERVERDATA_AUTH with submitted
id i, the gate writes the empty-body SERVERDATA_RESPONSE_VALUE frame echoing
i and then, on a password match, the empty-body SERVERDATA_AUTH_RESPONSE
frame echoing i, leaving the connection open, emitting the connection event
and registering the connection; on a mismatch it writes the same first frame
and then the SERVERDATA_AUTH_RESPONSE frame with id -1 (bytes 255, 255, 255,
255), and closes the transport. Exactly two frames are written either way. -/
theorem c2_auth_gate (password : List Nat) (rid : Nat) (m : Message)
    (htype : m.type = SERVERDATA_AUTH)
    (hid1 : -2147483648 ≤ m.id) (hid2 : m.id ≤ 2147483647) :
    (m.body = password →
      handleAuth password rid m = Except.ok
        { written := [toLE4 10 ++ toLE4 ((m.id % 4294967296).toNat) ++ toLE4 0 ++ [0, 0],
                      toLE4 10 ++ toLE4 ((m.id % 4294967296).toNat) ++ toLE4 2 ++ [0, 0]],
          closed := false, events := [Event.connection rid], registered := true }) ∧
    (m.body ≠ password →
      handleAuth password rid m = Except.ok
        { written := [toLE4 10 ++ toLE4 ((m.id % 4294967296).toNat) ++ toLE4 0 ++ [0, 0],
                      toLE4 10 ++ toLE4 4294967295 ++ toLE4 2 ++ [0, 0]],
          closed := true, events := [], registered := false }) := by
  have hfRV : writeMessage (some m.id) SERVERDATA_RESPONSE_VALUE [] 0 =
      Except.ok (toLE4 10 ++ toLE4 ((m.id % 4294967296).toNat) ++ toLE4 0 ++ [0, 0]) := by
    have hw := writeMessage_ascii m.id SERVERDATA_RESPONSE_VALUE [] 0 (by simp)
      hid1 hid2 (by norm_num [SERVERDATA_RESPONSE_VALUE])
      (by norm_num [SERVERDATA_RESPONSE_VALUE]) (by norm_num)
    simpa [SERVERDATA_RESPONSE_VALUE] using hw
  have hfAR : writeMessage (some m.id) SERVERDATA_AUTH_RESPONSE [] 0 =
      Except.ok (toLE4 10 ++ toLE4 ((m.id % 4294967296).toNat) ++ toLE4 2 ++ [0, 0]) := by
    have hw := writeMessage_ascii m.id SERVERDATA_AUTH_RESPONSE [] 0 (by simp)
      hid1 hid2 (by norm_num [SERVERDATA_AUTH_RESPONSE])
      (by norm_num [SERVERDATA_AUTH_RESPONSE]) (by norm_num)
    have h2 : (((SERVERDATA_AUTH_RESPONSE : Int)) % 4294967296).toNat = 2 := rfl
    simpa [h2] using hw
  have hfBad : writeMessage (some (-1)) SERVERDATA_AUTH_RESPONSE [] 0 =
      Except.ok (toLE4 10 ++ toLE4 4294967295 ++ toLE4 2 ++ [0, 0]) := by
    have hw := writeMessage_ascii (-1) SERVERDATA_AUTH_RESPONSE [] 0 (by simp)
      (by norm_num) (by norm_num) (by norm_num [SERVERDATA_AUTH_RESPONSE])
      (by norm_num [SERVERDATA_AUTH_RESPONSE]) (by norm_num)
    have h2 : (((SERVERDATA_AUTH_RESPONSE : Int)) % 4294967296).toNat = 2 := rfl
    have hneg : (((-1 : Int)) % 4294967296).toNat = 4294967295 := by omega
    simpa [h2, hneg] using hw
  constructor
  · intro heq
    unfold handleAuth
    simp [hfRV, hfAR, htype, heq]
  · intro hne
    unfold handleAuth
    simp [hfRV, hfBad, htype, hne]

/-- Witness for C2 with password "ab", submitted id 5: the matching and the
mismatching body. -/
theorem c2_auth_gate_witness :
    (([97, 98] : List Nat) = [97, 98] →
      handleAuth [97, 98] 7 { id := 5, type := SERVERDATA_AUTH, body := [97, 98], size := 12 } =
        Except.ok
          { written := [toLE4 10 ++ toLE4 (((5 : Int) % 4294967296).toNat) ++ toLE4 0 ++ [0, 0],
                        toLE4 10 ++ toLE4 (((5 : Int) % 4294967296).toNat) ++ toLE4 2 ++ [0, 0]],
            closed := false, events := [Event.connection 7], registered := true }) ∧
    (([97] : List Nat) ≠ [97, 98] →
      handleAuth [97, 98] 7 { id := 5, type := SERVERDATA_AUTH, body := [97], size := 12 } =
        Except.ok
          { written := [toLE4 10 ++ toLE4 (((5 : Int) % 4294967296).toNat) ++ toLE4 0 ++ [0, 0],
                        toLE4 10 ++ toLE4 4294967295 ++ toLE4 2 ++ [0, 0]],
            closed := true, events := [], registered := false }) :=
  ⟨(c2_auth_gate [97, 98] 7 { id := 5, type := SERVERDATA_AUTH, body := [97, 98], size := 12 }
      rfl (by decide) (by decide)).1,
   (c2_auth_gate [97, 98] 7 { id := 5, type := SERVERDATA_AUTH, body := [97], size := 12 }
      rfl (by decide) (by decide)).2⟩

/-- C4: a first frame whose decoded type is not SERVERDATA_AUTH makes the gate
close the transport at once: no frame is written, no event is emitted, and
the connection is never registered. -/
theorem c4_reject_non_auth (password : List Nat) (rid : Nat) (m : Message)
    (h : m.type ≠ SERVERDATA_AUTH) :
    handleAuth password rid m =
      Except.ok { written := [], closed := true, events := [], registered := false } := by
  unfold handleAuth
  rw [if_pos h]

/-- Witness for C4 at type value 2, the value SERVERDATA_EXECCOMMAND shares
with SERVERDATA_AUTH_RESPONSE. -/
theorem c4_reject_non_auth_witness :
    ((SERVERDATA_EXECCOMMAND : Int) ≠ SERVERDATA_AUTH) ∧
    handleAuth [1, 2] 9 { id := 4, type := SERVERDATA_EXECCOMMAND, body := [], size := 10 } =
      Except.ok { written := [], closed := true, events := [], registered := false } :=
  ⟨by decide,
   c4_reject_non_auth [1, 2] 9 { id := 4, type := SERVERDATA_EXECCOMMAND, body := [], size := 10 }
     (by decide)⟩

/-- C5: reply on a connection id absent from the registry throws
"Connection not found"; the throw happens before any frame is encoded or
written and before any state is touched, so nothing changes. -/
theorem c5_reply_unregistered (s : ServerState) (rid : Nat) (reqId : Int) (body : List Nat)
    (h : mget s.connections rid = none) :
    reply s rid reqId body = Except.error "Connection not found" := by
  unfold reply
  rw [h]

/-- Witness for C5 on an empty registry. -/
theorem c5_reply_unregistered_witness :
    mget (ServerState.mk [] []).connections 3 = none ∧
    reply (ServerState.mk [] []) 3 42 [111] = Except.error "Connection not found" :=
  ⟨rfl, c5_reply_unregistered (ServerState.mk [] []) 3 42 [111] rfl⟩

/-- C9 fails on the code: the sweeper is registered as
setInterval(this.notifyUnreplied, 60 * 1000), which passes the method
unbound, so each tick invokes it with an undefined this-value and the access
this.unreplied throws a TypeError before any notification is emitted. The
method body itself, run on a bound receiver, would emit one unreplied event
per pending request and leave the state unchanged, as shown on a state with
one registered connection holding one pending request. -/
theorem c9_sweeper_tick_crashes :
    sweeperTick sweeperReceiver = Except.error "TypeError: this is undefined" ∧
    notifyUnreplied
        { connections := [(1, [])],
          unreplied := [(1, [{ id := 42, type := 2, body := [115], size := 11 }])] } =
      [Event.unreplied 1 { id := 42, type := 2, body := [115], size := 11 }] :=
  ⟨rfl, rfl⟩

/-- C3: for a registered connection, reading an EXEC_COMMAND frame with id 42
emits the request event and appends the message to the connection's unreplied
list, which then contains a request with id 42; a subsequent
reply(rid, 42, b) succeeds, appends exactly one frame to that transport —
the SERVERDATA_RESPONSE_VALUE frame with id 42 and body b, as its decoding
confirms — and afterwards the unreplied list no longer contains any request
with id 42. -/
theorem c3_request_reply_correlation (s : ServerState) (rid : Nat)
    (conn : List (List Nat)) (pend : List Message) (buffer b : List Nat) (m : Message)
    (hc : mget s.connections rid = some conn)
    (hu : mget s.unreplied rid = some pend)
    (hdec : readResponse buffer = Except.ok m)
    (htype : m.type = SERVERDATA_EXECCOMMAND) (hid : m.id = 42)
    (hb : ∀ c ∈ b, c < 128) (hblen : b.length ≤ 2147483637) :
    ∃ s₁ f s₂,
      handleFrame s rid buffer = Except.ok (s₁, [Event.request rid m]) ∧
      mget s₁.unreplied rid = some (pend ++ [m]) ∧
      (∃ m' ∈ pend ++ [m], m'.id = 42) ∧
      writeMessage (some 42) SERVERDATA_RESPONSE_VALUE b 0 = Except.ok f ∧
      readResponse f = Except.ok
        { id := 42, type := SERVERDATA_RESPONSE_VALUE, body := b,
          size := (b.length : Int) + 10 } ∧
      reply s₁ rid 42 b = Except.ok s₂ ∧
      s₂.connections = mset s.connections rid (conn ++ [f]) ∧
      mget s₂.connections rid = some (conn ++ [f]) ∧
      mget s₂.unreplied rid = some ((pend ++ [m]).filter (fun m' => m'.id != 42)) ∧
      (∀ m' ∈ ((pend ++ [m]).filter (fun m' => m'.id != 42)), m'.id ≠ 42) := by
  have hf : writeMessage (some 42) SERVERDATA_RESPONSE_VALUE b 0 = Except.ok
      (toLE4 (b.length + 10) ++ toLE4 (((42 : Int) % 4294967296).toNat) ++
        toLE4 (((SERVERDATA_RESPONSE_VALUE : Int) % 4294967296).toNat) ++ b ++ [0, 0]) :=
    writeMessage_ascii 42 SERVERDATA_RESPONSE_VALUE b 0 hb (by norm_num) (by norm_num)
      (by norm_num [SERVERDATA_RESPONSE_VALUE]) (by norm_num [SERVERDATA_RESPONSE_VALUE]) hblen
  have hrd := readResponse_encoded_ascii 42 SERVERDATA_RESPONSE_VALUE b (by norm_num)
    (by norm_num) (by norm_num [SERVERDATA_RESPONSE_VALUE])
    (by norm_num [SERVERDATA_RESPONSE_VALUE]) hb hblen
  have hHF : handleFrame s rid buffer = Except.ok
      ({ s with unreplied := mset s.unreplied rid (pend ++ [m]) },
       [Event.request rid m]) := by
    unfold handleFrame
    simp [hdec, htype, hu]
  have hRP : reply { s with unreplied := mset s.unreplied rid (pend ++ [m]) } rid 42 b =
      Except.ok
        { connections := mset s.connections rid
            (conn ++ [toLE4 (b.length + 10) ++ toLE4 (((42 : Int) % 4294967296).toNat) ++
              toLE4 (((SERVERDATA_RESPONSE_VALUE : Int) % 4294967296).toNat) ++ b ++ [0, 0]]),
          unreplied := mset (mset s.unreplied rid (pend ++ [m])) rid
            ((pend ++ [m]).filter (fun m' => m'.id != 42)) } := by
    unfold reply
    simp [hc, hf, mget_mset_self]
  refine ⟨_, _, _, hHF, mget_mset_self _ _ _, ⟨m, by simp, hid⟩, hf, hrd, hRP, rfl,
    mget_mset_self _ _ _, mget_mset_self _ _ _, ?_⟩
  intro m' hm'
  rw [List.mem_filter] at hm'
  simpa using hm'.2

/-- Witness for C3: one registered connection (id 1) with an empty unreplied
list, receiving the encoding of an EXEC_COMMAND frame with id 42 and
body "status", then replying with body "ok". -/
theorem c3_request_reply_correlation_witness :
    readResponse [16, 0, 0, 0, 42, 0, 0, 0, 2, 0, 0, 0, 115, 116, 97, 116, 117, 115, 0, 0] =
      Except.ok (Message.mk 42 2 [115, 116, 97, 116, 117, 115] 16) ∧
    (∃ s₁ f s₂,
      handleFrame (ServerState.mk [(1, [])] [(1, [])]) 1
          [16, 0, 0, 0, 42, 0, 0, 0, 2, 0, 0, 0, 115, 116, 97, 116, 117, 115, 0, 0] =
        Except.ok (s₁, [Event.request 1
          (Message.mk 42 2 [115, 116, 97, 116, 117, 115] 16)]) ∧
      mget s₁.unreplied 1 =
        some (([] : List Message) ++ [(Message.mk 42 2 [115, 116, 97, 116, 117, 115] 16)]) ∧
      (∃ m' ∈ ([] : List Message) ++ [(Message.mk 42 2 [115, 116, 97, 116, 117, 115] 16)],
        m'.id = 42) ∧
      writeMessage (some 42) SERVERDATA_RESPONSE_VALUE [111, 107] 0 = Except.ok f ∧
      readResponse f = Except.ok
        { id := 42, type := SERVERDATA_RESPONSE_VALUE, body := [111, 107],
          size := ((2 : Nat) : Int) + 10 } ∧
      reply s₁ 1 42 [111, 107] = Except.ok s₂ ∧
      s₂.connections = mset [(1, [])] 1 ([] ++ [f]) ∧
      mget s₂.connections 1 = some ([] ++ [f]) ∧
      mget s₂.unreplied 1 =
        some ((([] : List Message) ++ [(Message.mk 42 2 [115, 116, 97, 116, 117, 115] 16)]).filter
          (fun m' => m'.id != 42)) ∧
      (∀ m' ∈ ((([] : List Message) ++ [(Message.mk 42 2 [115, 116, 97, 116, 117, 115] 16)]).filter
          (fun m' => m'.id != 42)), m'.id ≠ 42)) :=
  ⟨rfl,
   c3_request_reply_correlation (ServerState.mk [(1, [])] [(1, [])]) 1 [] []
     [16, 0, 0, 0, 42, 0, 0, 0, 2, 0, 0, 0, 115, 116, 97, 116, 117, 115, 0, 0] [111, 107]
     (Message.mk 42 2 [115, 116, 97, 116, 117, 115] 16)
     rfl rfl rfl rfl rfl (by decide) (by decide)⟩

/-- C10: reply on a registered connection succeeds for any int32 request id,
matched or not: the SERVERDATA_RESPONSE_VALUE frame is written to that
transport, and the unreplied list keeps exactly its messages whose id
differs; when nothing matches, the unreplied map is left unchanged, and when
several pending requests share the id, the one reply removes all of them. -/
theorem c10_reply_unmatched_or_shared (s : ServerState) (rid : Nat) (reqId : Int)
    (b : List Nat) (conn : List (List Nat)) (pend : List Message)
    (hc : mget s.connections rid = some conn)
    (hu : mget s.unreplied rid = some pend)
    (hr1 : -2147483648 ≤ reqId) (hr2 : reqId ≤ 2147483647)
    (hblen : byteLength b ≤ 2147483637) :
    ∃ f s', writeMessage (some reqId) SERVERDATA_RESPONSE_VALUE b 0 = Except.ok f ∧
      reply s rid reqId b = Except.ok s' ∧
      s'.connections = mset s.connections rid (conn ++ [f]) ∧
      mget s'.connections rid = some (conn ++ [f]) ∧
      mget s'.unreplied rid = some (pend.filter (fun m => m.id != reqId)) ∧
      ((∀ m ∈ pend, m.id ≠ reqId) → s'.unreplied = s.unreplied) ∧
      (∀ m ∈ pend.filter (fun m => m.id != reqId), m.id ≠ reqId) := by
  obtain ⟨f, hf⟩ : ∃ f, writeMessage (some reqId) SERVERDATA_RESPONSE_VALUE b 0 =
      Except.ok f := by
    unfold writeMessage
    simp only [Option.getD_some]
    rw [writeInt32LE_ok ((byteLength b : Int) + 10) (by omega) (by omega),
        writeInt32LE_ok reqId hr1 hr2,
        writeInt32LE_ok SERVERDATA_RESPONSE_VALUE (by norm_num [SERVERDATA_RESPONSE_VALUE])
          (by norm_num [SERVERDATA_RESPONSE_VALUE])]
    exact ⟨_, rfl⟩
  have hRP : reply s rid reqId b = Except.ok
      { connections := mset s.connections rid (conn ++ [f]),
        unreplied := mset s.unreplied rid (pend.filter (fun m => m.id != reqId)) } := by
    unfold reply
    simp [hc, hf, hu]
  refine ⟨f, _, hf, hRP, rfl, mget_mset_self _ _ _, mget_mset_self _ _ _, ?_, ?_⟩
  · intro hnone
    have hfil : pend.filter (fun m => m.id != reqId) = pend := by
      rw [List.filter_eq_self]
      intro a ha
      simpa using hnone a ha
    show mset s.unreplied rid (pend.filter (fun m => m.id != reqId)) = s.unreplied
    rw [hfil]
    exact mset_eq_of_mget s.unreplied rid pend hu
  · intro m' hm'
    rw [List.mem_filter] at hm'
    simpa using hm'.2

/-- Witness for C10: connection 1 registered with two pending requests that
both carry id 7 and none carrying 9; the reply at the unmatched id 9 writes
its frame and leaves both pending requests in place (the filter removes
nothing), exercising in the same call the lemma's removal description. -/
theorem c10_reply_unmatched_or_shared_witness :
    mget (ServerState.mk [(1, [])]
        [(1, [(Message.mk 7 2 [97] 11),
              (Message.mk 7 2 [98] 11)])]).connections 1 = some [] ∧
    (∃ f s', writeMessage (some 9) SERVERDATA_RESPONSE_VALUE [111] 0 = Except.ok f ∧
      reply (ServerState.mk [(1, [])]
          [(1, [(Message.mk 7 2 [97] 11),
                (Message.mk 7 2 [98] 11)])]) 1 9 [111] =
        Except.ok s' ∧
      s'.connections = mset [(1, [])] 1 ([] ++ [f]) ∧
      mget s'.connections 1 = some ([] ++ [f]) ∧
      mget s'.unreplied 1 =
        some ([(Message.mk 7 2 [97] 11),
               (Message.mk 7 2 [98] 11)].filter (fun m => m.id != 9)) ∧
      ((∀ m ∈ [(Message.mk 7 2 [97] 11),
                (Message.mk 7 2 [98] 11)], m.id ≠ 9) →
        s'.unreplied = [(1, [(Message.mk 7 2 [97] 11),
                             (Message.mk 7 2 [98] 11)])]) ∧
      (∀ m ∈ [(Message.mk 7 2 [97] 11),
              (Message.mk 7 2 [98] 11)].filter (fun m => m.id != 9),
        m.id ≠ 9)) :=
  ⟨rfl,
   c10_reply_unmatched_or_shared (ServerState.mk [(1, [])]
       [(1, [(Message.mk 7 2 [97] 11),
             (Message.mk 7 2 [98] 11)])]) 1 9 [111] []
     [(Message.mk 7 2 [97] 11),
      (Message.mk 7 2 [98] 11)]
     rfl rfl (by decide) (by decide) (by decide)⟩

end RCON
